import Mathlib

/-!
Verification of the interview-assessment scoring core
(`src/models/scoring_logic.py` and its caller in `src/app.py`).

Python strings are modelled as `List Char`; Python floats are modelled as
exact rationals (`ℚ`).  External collaborators are passed in as parameters:
the sentence-embedding model (`Embedder`), `numpy.exp` (`expFn`),
`hashlib.md5` (`md5Fn`, returning the digest as a natural number, as
`int(hexdigest, 16)` does), and `random.choice` (`pick`).  Python calls that
may raise are modelled with `Option`/`Except`.
-/

namespace Scoring

/-- The whitespace characters recognised by Python `str.split()` /
`str.strip()` (ASCII range: space, tab, newline, carriage return,
vertical tab, form feed). -/
def isPySpace (c : Char) : Bool :=
  c = ' ' || c = '\t' || c = '\n' || c = '\r' ||
  c = Char.ofNat 11 || c = Char.ofNat 12

/-- Python `str.lower()` (character-wise, adequate for the ASCII data used
throughout the scoring module). -/
def pyLower (s : List Char) : List Char := s.map Char.toLower

/-- Python `str.strip()`: drop leading and trailing whitespace. -/
def pyStrip (s : List Char) : List Char :=
  ((s.dropWhile isPySpace).reverse.dropWhile isPySpace).reverse

/-- Helper for `pySplit`: split a character list at whitespace characters,
keeping (possibly empty) fragments. -/
def splitFrags : List Char → List (List Char)
  | [] => [[]]
  | c :: rest =>
    match splitFrags rest, isPySpace c with
    | r, true => [] :: r
    | [], false => [[c]]
    | h :: t, false => (c :: h) :: t

/-- Python `str.split()` with no argument: split on runs of whitespace,
producing no empty tokens. -/
def pySplit (s : List Char) : List (List Char) :=
  (splitFrags s).filter (· ≠ [])

/-- The apostrophe character, U+0027. -/
def apos : Char := Char.ofNat 39

/-- `non_answers` from `is_non_relevant` (scoring_logic.py lines 37-42):
phrases indicating inability to answer. -/
def non_answers : List (List Char) :=
  [ "i don".toList ++ apos :: "t know".toList,
    "i dont know".toList,
    "no idea".toList,
    "i have no idea".toList,
    "not sure".toList,
    "i can".toList ++ apos :: "t answer".toList,
    "i cannot answer".toList,
    "i don".toList ++ apos :: "t understand".toList,
    "i dont understand".toList ]

/-- `is_non_relevant` (scoring_logic.py lines 23-46): a transcript is
non-relevant when it is empty, has at most 2 whitespace-separated tokens
after stripping/lowering, or contains one of the `non_answers` phrases as a
substring. -/
def is_non_relevant (text : List Char) : Bool :=
  if text = [] then true
  else
    let t := pyLower (pyStrip text)
    if t.length = 0 then true
    else
      let words := pySplit t
      if words.length ≤ 2 then true
      else non_answers.any (fun na => decide (na <:+: t))

/-- `MIN_LENGTH_FOR_SCORE` (scoring_logic.py line 10). -/
def MIN_LENGTH_FOR_SCORE : ℕ := 5

/-! ## Confidence estimator (`compute_confidence_score`, lines 50-198) -/

/-- Python `int(round(x))`: round half to even, then truncate (a no-op on an
integral value). -/
def pyRound (q : ℚ) : ℤ :=
  let f := ⌊q⌋
  let frac := q - (f : ℚ)
  if frac < 1/2 then f
  else if (1 : ℚ)/2 < frac then f + 1
  else if f % 2 = 0 then f else f + 1

/-- `target_confidences` (lines 73-79): hard-coded per-question confidence
values. -/
def target_confidences : List (List Char × ℤ) :=
  [("q1".toList, 58), ("q2".toList, 50), ("q3".toList, 40),
   ("q4".toList, 49), ("q5".toList, 34)]

/-- Length factor (lines 104-115): discrete step factor by word count. -/
def length_factor (word_count : ℕ) : ℚ :=
  if 40 ≤ word_count then 13/10
  else if 30 ≤ word_count then 12/10
  else if 20 ≤ word_count then 11/10
  else if 10 ≤ word_count then 1
  else if 5 ≤ word_count then 9/10
  else 7/10

/-- Complexity factor (lines 117-132): based on average word length and
word-diversity ratio (`len(set(words)) / max(1, word_count)`). -/
def complexity_factor (words : List (List Char)) : ℚ :=
  let word_count := words.length
  let avg_word_length : ℚ := ((words.map List.length).sum : ℕ) / ((max 1 word_count : ℕ) : ℚ)
  let diversity_ratio : ℚ := (words.eraseDups.length : ℕ) / ((max 1 word_count : ℕ) : ℚ)
  if 7/10 < diversity_ratio ∧ 5 < avg_word_length then 12/10
  else if 6/10 < diversity_ratio then 11/10
  else if 5/10 < diversity_ratio then 1
  else 9/10

/-- Question-specific adjustment (lines 144-145): maps a hash value already
reduced mod 100 to an adjustment in [-10, 10]. -/
def question_adjustment (question_hash : ℕ) : ℤ :=
  ((question_hash % 21 : ℕ) : ℤ) - 10

/-- `filler_words` (line 148). -/
def filler_words : List (List Char) :=
  ["um".toList, "uh".toList, "er".toList, "ah".toList,
   "like".toList, "you know".toList, "so".toList, "well".toList]

/-- Filler count (line 149): number of tokens whose lowering is in
`filler_words`. -/
def filler_count (words : List (List Char)) : ℕ :=
  words.countP (fun w => filler_words.contains (pyLower w))

/-- `compute_confidence_score` (lines 50-173, the non-exception paths).
`expFn` stands for `numpy.exp` and `md5Fn` for
`int(hashlib.md5(s.encode()).hexdigest(), 16)`; both are external library
capabilities.  The body of the `try` block contains no failing operation
under this model, so the `except` branch is modelled separately as
`confidence_fallback`. -/
def compute_confidence_score (expFn : ℚ → ℚ) (md5Fn : List Char → ℕ)
    (transcript : List Char) (log_prob_raw : ℚ)
    (question_id : Option (List Char)) : ℤ :=
  -- `if not transcript or is_non_relevant(transcript): return 0`
  if transcript = [] || is_non_relevant transcript then 0
  else
    -- `if question_id and question_id in target_confidences` (an empty
    -- string is falsy in Python)
    match question_id.bind
        (fun q => if q = [] then none else target_confidences.lookup q) with
    | some target_value => target_value
    | none =>
      let probability := if 0 < log_prob_raw then log_prob_raw else expFn log_prob_raw
      let base_confidence := probability * 100
      let words := pySplit transcript
      let word_count := words.length
      -- `question_hash`: md5 of the question id when truthy, of the
      -- transcript otherwise, reduced mod 100
      let question_hash :=
        (match question_id with
         | some q => if q = [] then md5Fn transcript else md5Fn q
         | none => md5Fn transcript) % 100
      let filler_penalty : ℤ := min 15 ((filler_count words : ℕ) * 3 : ℕ)
      let intermediate := base_confidence * length_factor word_count * complexity_factor words
      let final_score :=
        intermediate + (question_adjustment question_hash : ℚ) - (filler_penalty : ℚ)
      pyRound (max 0 (min 100 final_score))

/-- `fallback_map` (lines 185-188). -/
def fallback_map : List (List Char × ℤ) :=
  [("q1".toList, 58), ("q2".toList, 50), ("q3".toList, 40),
   ("q4".toList, 49), ("q5".toList, 34),
   ("q6".toList, 65), ("q7".toList, 72), ("q8".toList, 55),
   ("q9".toList, 60), ("q10".toList, 45)]

/-- The `except` branch of `compute_confidence_score` (lines 175-198):
fixed fallback values by question id, else a hash-derived value in
[30, 80], else 50. -/
def confidence_fallback (md5Fn : List Char → ℕ) (transcript : List Char)
    (question_id : Option (List Char)) : ℤ :=
  let from_transcript : ℤ :=
    if transcript = [] then 50
    else 30 + ((md5Fn transcript % 51 : ℕ) : ℤ)
  match question_id with
  | some q =>
    if q = [] then from_transcript
    else
      match fallback_map.lookup q with
      | some v => v
      | none => from_transcript
  | none => from_transcript

/-! ## Rubric matching engine (`score_with_rubric`, lines 202-344) -/

/-- The semantic-similarity collaborator (a `SentenceTransformer` plus
`util.cos_sim`): `encode` may raise (modelled as `Except` with the Python
exception message), `cosSim` is total.  `E` is the embedding-vector type. -/
structure Embedder (E : Type) where
  encode : List Char → Except (List Char) E
  cosSim : E → E → ℚ

/-- One entry of `rubric_data`: a dictionary holding (at most) an
`ideal_points` mapping from tier-name strings to lists of phrases.
An absent `ideal_points` key is the empty mapping (`.get("ideal_points", {})`). -/
structure RubricEntry where
  ideal_points : List (List Char × List (List Char))

/-- Decimal string key of a tier, as used in the rubric dictionaries
("0" .. "4"). -/
def tier_key (point : ℕ) : List Char := (Nat.repr point).toList

/-- `count_matches` (lines 235-250): number of indicator phrases whose
cosine similarity with the answer embedding reaches `threshold` (called
with the default `threshold = 0.40`, i.e. `mkRat 2 5`).  A failure while
encoding the batch is swallowed (`hits` stays 0). -/
def count_matches {E : Type} (M : Embedder E) (embedding_a : E)
    (indicators : List (List Char)) (threshold : ℚ) : ℕ :=
  if indicators = [] then 0
  else
    match (indicators.map pyLower).mapM M.encode with
    | .error _ => 0
    | .ok embs => embs.countP (fun v => decide (threshold ≤ M.cosSim embedding_a v))

/-- Per-tier minimum hit count (lines 293-299).  `int()` on a non-negative
float truncates downwards, so `int(n * 0.6)` is the floor of `6n/10`,
i.e. the natural division `(6 * n) / 10` (this agrees with IEEE-754 double
semantics of `n * 0.6` for every `n ≤ 100000`); likewise
`int(n * 0.5) = n / 2`.  The floor characterisation is proved in the
C4 theorem below. -/
def min_hits (point : ℕ) (n : ℕ) : ℕ :=
  if point = 4 then max 1 ((6 * n) / 10)
  else if point = 3 then max 1 ((5 * n) / 10)
  else 1

/-- Whether a tier enters `match_results` with `passed = True`
(lines 284-307): its indicator list must be present and non-empty
(`if not indicators: continue`), and its hits must reach `min_hits`. -/
def tier_passes {E : Type} (M : Embedder E) (embedding_a : E)
    (rubric : List (List Char × List (List Char))) (point : ℕ) : Bool :=
  match rubric.lookup (tier_key point) with
  | none => false
  | some indicators =>
    if indicators = [] then false
    else decide (min_hits point indicators.length ≤
                   count_matches M embedding_a indicators (mkRat 2 5))

/-- The dynamic-voting result (lines 281-314): the code records
`(hits, min_hits, passed)` per present tier into a dict and then takes the
first `passed` tier of `sorted(keys, reverse=True)`, defaulting to 1.
Since tiers are examined in the order 4, 3, 2, 1, this equals the first
tier of [4, 3, 2, 1] that is present, non-empty and passed. -/
def voting_score {E : Type} (M : Embedder E) (embedding_a : E)
    (rubric : List (List Char × List (List Char))) : ℕ :=
  match [4, 3, 2, 1].find? (tier_passes M embedding_a rubric) with
  | some point => point
  | none => 1

/-- `target_scores` (lines 257-259): hard-coded demo scores. -/
def target_scores : List (List Char × ℕ) :=
  [("q1".toList, 3), ("q2".toList, 3), ("q3".toList, 2),
   ("q4".toList, 4), ("q5".toList, 3)]

/-- `score_reasons` (lines 265-271): canned justification per target score. -/
def score_reasons : List (ℕ × List Char) :=
  [(4, "Excellent answer with comprehensive details and clear structure.".toList),
   (3, "Good answer with relevant content and adequate explanation.".toList),
   (2, "Adequate answer but lacks depth or specificity.".toList),
   (1, "Minimal or vague response with limited relevance.".toList),
   (0, "Unanswered or non-relevant response.".toList)]

/-- `reasons_by_score` (lines 317-330): candidate justifications for the
voting path; one is drawn with `random.choice`. -/
def reasons_by_score : List (ℕ × List (List Char)) :=
  [(4, ["Excellent demonstration of knowledge with specific examples and clear structure.".toList,
        "Comprehensive answer covering all key aspects with depth and clarity.".toList,
        "Outstanding response showing mastery of the subject with practical insights.".toList]),
   (3, ["Good answer demonstrating understanding with relevant examples.".toList,
        "Solid response covering main points adequately.".toList,
        "Competent answer showing practical knowledge of the topic.".toList]),
   (2, ["Basic understanding shown but lacks depth or specific details.".toList,
        "Adequate response but could benefit from more elaboration.".toList,
        "Covers the topic superficially without deeper analysis.".toList]),
   (1, ["Minimal response with limited demonstration of knowledge.".toList,
        "Vague answer that touches on the topic without substance.".toList,
        "Response shows very basic understanding of the subject.".toList])]

/-- Justification when the embedder is `None` (line 209). -/
def embedder_error_reason : List Char :=
  "Error: Embedding model failed to load.".toList

/-- Justification when the rubric is missing/empty (line 219). -/
def no_rubric_reason : List Char :=
  "No rubric available for this question.".toList

/-- Default tier-0 justification (line 225). -/
def unanswered_reason : List Char := "Unanswered".toList

/-- `f"Error in scoring: {str(e)}"` (line 344). -/
def scoring_error_reason (msg : List Char) : List Char :=
  "Error in scoring: ".toList ++ msg

/-- `f"Score {final_score} achieved based on evaluation."` (line 337);
dead branch, kept for fidelity. -/
def score_generic_reason (final_score : ℕ) : List Char :=
  "Score ".toList ++ (Nat.repr final_score).toList ++
    " achieved based on evaluation.".toList

/-- Default for `score_reasons.get` (line 273); dead branch, kept for
fidelity. -/
def score_reasons_default : List Char :=
  "Score achieved based on rubric evaluation.".toList

/-- `score_with_rubric` (lines 202-344).  `pick` stands for
`random.choice` (the process-global random generator); a `none` result
models an uncaught Python exception (the `IndexError` of
`rubric.get("0", ["Unanswered"])[0]` on an empty tier-0 list, which sits
outside the `try` block). -/
def score_with_rubric {E : Type} (model_embedder : Option (Embedder E))
    (pick : List (List Char) → List Char)
    (question_id question_text answer : List Char)
    (rubric_data : List (List Char × RubricEntry)) :
    Option (ℕ × List Char) :=
  match model_embedder with
  | none => some (0, embedder_error_reason)
  | some M =>
    let rubric := ((rubric_data.lookup question_id).getD ⟨[]⟩).ideal_points
    if rubric = [] then some (3, no_rubric_reason)
    else
      let a := pyStrip answer
      if is_non_relevant a || decide ((pySplit a).length < MIN_LENGTH_FOR_SCORE) then
        match rubric.lookup (tier_key 0) with
        | some [] => none
        | some (zero_reason :: _) => some (0, zero_reason)
        | none => some (0, unanswered_reason)
      else
        match M.encode (pyLower a) with
        | .error msg => some (1, scoring_error_reason msg)
        | .ok embedding_a =>
          match target_scores.lookup question_id with
          | some target_score =>
            some (target_score,
                  (score_reasons.lookup target_score).getD score_reasons_default)
          | none =>
            let final_score := voting_score M embedding_a rubric
            match reasons_by_score.lookup final_score with
            | some rs => some (final_score, pick rs)
            | none => some (final_score, score_generic_reason final_score)

/-! ## Orchestrator (`src/app.py`, `render_processing_page`) -/

/-- The confidence number the orchestrator stores in the per-question
record (app.py lines 1680 and 1702): `compute_confidence_score` is called
WITHOUT a question id, and the result is stored as
`f"{final_confidence_score*100:.2f}"` — two-decimal formatting of an
integer times 100 is exact, so the recorded value is modelled as the
rational `confidence * 100`. -/
def recorded_confidence (expFn : ℚ → ℚ) (md5Fn : List Char → ℕ)
    (transcript : List Char) (log_prob_raw : ℚ) : ℚ :=
  ((compute_confidence_score expFn md5Fn transcript log_prob_raw none : ℤ) : ℚ) * 100

/-! ## Concrete fixtures for witnesses and counterexamples -/

/-- A trivial embedding collaborator: every string encodes successfully and
every similarity is 1 (≥ the 0.40 threshold). -/
def unitEmbedder : Embedder Unit := ⟨fun _ => .ok (), fun _ _ => 1⟩

/-- A concrete stand-in for `random.choice`: take the first candidate. -/
def pickHead : List (List Char) → List Char := fun l => l.headD []

/-- A second stand-in for `random.choice` (a later RNG state): take the
second candidate. -/
def pickSecond : List (List Char) → List Char := fun l => (l.drop 1).headD []

/-- A five-token, relevant answer. -/
def wAnswer : List Char := "hello there my good friend".toList

/-- A single indicator phrase. -/
def wPhrase : List Char := "great phrase".toList

/-- An `ideal_points` mapping with one tier-4 indicator. -/
def wIdeal : List (List Char × List (List Char)) := [("4".toList, [wPhrase])]

/-- Rubric data with that mapping under question id `q1`. -/
def wRubricQ1 : List (List Char × RubricEntry) := [("q1".toList, ⟨wIdeal⟩)]

/-- Rubric data with that mapping under question id `q7`. -/
def wRubricQ7 : List (List Char × RubricEntry) := [("q7".toList, ⟨wIdeal⟩)]

/-- A 10-word filler-free transcript of distinct long words (diversity 1,
average word length 8.5, so complexity factor 1.2). -/
def ex1 : List Char :=
  "analysis framework database optimize deployment pipeline resilient scalable latency throughput".toList

/-- An 11-word filler-free transcript of one repeated word (diversity 1/11,
so complexity factor 0.9); same length bucket (10-19 words) as `ex1`. -/
def ex2 : List Char :=
  "alpha alpha alpha alpha alpha alpha alpha alpha alpha alpha alpha".toList

/-- The genuine `int(hashlib.md5(s.encode()).hexdigest(), 16)` values of
`ex1` and `ex2`. -/
def md5C : List Char → ℕ := fun s =>
  if s = ex1 then 78397261757596447984042243167691507559
  else if s = ex2 then 259459710787967292300633266284656002339
  else 0

/-- A concrete stand-in for `numpy.exp` (never consulted on the paths
exercised, since the acoustic values used are positive). -/
def idQ : ℚ → ℚ := id

/-- A 10-word filler-free transcript of distinct long words (complexity
factor 1.2, length bucket 10-19). -/
def wT1 : List Char :=
  "quantum entangle photon lattice spectrum coherent neutron isotope plasma circuit".toList

/-- A 12-word filler-free transcript of distinct long words (complexity
factor 1.2, same length bucket as `wT1`). -/
def wT2 : List Char :=
  "gradient entropy manifold tensor algebra calculus operator functor theorem integral matrix vector".toList

/-! ## Helper lemmas -/

theorem dropWhile_dropWhile {α : Type} (p : α → Bool) (l : List α) :
    (l.dropWhile p).dropWhile p = l.dropWhile p := by
  cases h : l.dropWhile p with
  | nil => simp
  | cons a t =>
    have hh := List.head?_dropWhile_not p l
    rw [h] at hh
    simp only [List.head?_cons] at hh
    simp [List.dropWhile_cons, hh]

/-- Python `strip()` is idempotent. -/
theorem pyStrip_idem (s : List Char) : pyStrip (pyStrip s) = pyStrip s := by
  unfold pyStrip
  set p := isPySpace with hp
  set m := s.dropWhile p with hm
  set n := (m.reverse.dropWhile p).reverse with hn
  have ht : m = n ++ (m.reverse.takeWhile p).reverse := by
    conv_lhs => rw [← m.reverse_reverse,
      ← List.takeWhile_append_dropWhile (p := p) (l := m.reverse)]
    rw [List.reverse_append, hn]
  have hfn : n.dropWhile p = n := by
    cases hcn : n with
    | nil => simp
    | cons a l =>
      have hma : m.head? = some a := by rw [ht, hcn]; simp
      have hpa : p a = false := by
        have h2 := List.head?_dropWhile_not p s
        rw [← hm, hma] at h2
        exact h2
      simp [List.dropWhile_cons, hpa]
  rw [hfn]
  have h3 : n.reverse.dropWhile p = n.reverse := by
    rw [hn, List.reverse_reverse]
    exact dropWhile_dropWhile p m.reverse
  rw [h3, List.reverse_reverse]

/-- The relevance predicate is invariant under stripping, since it strips
internally; `score_with_rubric` applies it to `answer.strip()` while
`compute_confidence_score` applies it to the raw transcript. -/
theorem is_non_relevant_pyStrip (s : List Char) :
    is_non_relevant (pyStrip s) = is_non_relevant s := by
  by_cases h0 : s = []
  · subst h0; rfl
  · by_cases h1 : pyStrip s = []
    · rw [h1]
      simp [is_non_relevant, h0, h1, pyLower]
    · simp only [is_non_relevant, h0, h1, pyStrip_idem, if_false, ite_false]

/-- `int(round(x))` of a value in [0, 100] stays in [0, 100]. -/
theorem pyRound_bounds {q : ℚ} (h0 : 0 ≤ q) (h100 : q ≤ 100) :
    0 ≤ pyRound q ∧ pyRound q ≤ 100 := by
  have hf0 : (0 : ℤ) ≤ ⌊q⌋ := Int.le_floor.mpr (by exact_mod_cast h0)
  have hf100 : ⌊q⌋ ≤ 100 := by
    have h := Int.floor_le_floor (α := ℚ) h100
    simpa using h
  have hfl : (⌊q⌋ : ℚ) ≤ q := Int.floor_le q
  simp only [pyRound]
  split_ifs with h1 h2 h3
  · exact ⟨hf0, hf100⟩
  · have hlt : (⌊q⌋ : ℚ) < 100 := by linarith
    have h99 : ⌊q⌋ < 100 := by exact_mod_cast hlt
    omega
  · exact ⟨hf0, hf100⟩
  · have hge : (1 : ℚ)/2 ≤ q - ⌊q⌋ := not_lt.mp h1
    have hlt : (⌊q⌋ : ℚ) < 100 := by linarith
    have h99 : ⌊q⌋ < 100 := by exact_mod_cast hlt
    omega

/-- A successful association-list lookup yields one of the stored values. -/
theorem lookup_mem_values {α β : Type} [BEq α] {l : List (α × β)} {k : α} {v : β}
    (h : l.lookup k = some v) : v ∈ l.map Prod.snd := by
  induction l with
  | nil => simp [List.lookup] at h
  | cons p t ih =>
    rw [List.lookup] at h
    cases hc : k == p.1 with
    | true => rw [hc] at h; simp at h; simp [← h]
    | false =>
      rw [hc] at h
      simp only [List.map_cons, List.mem_cons]
      right
      exact ih h

/-! ## Evaluation helpers -/

theorem pyRound_intCast (z : ℤ) : pyRound ((z : ℤ) : ℚ) = z := by
  simp [pyRound]

theorem pyRound_187_2 : pyRound (187/2 : ℚ) = 94 := by
  have hf : ⌊(187/2 : ℚ)⌋ = 93 := by
    rw [Int.floor_eq_iff]
    norm_num
  simp only [pyRound, hf]
  norm_num

set_option maxRecDepth 40000 in
theorem conf_ex1_eval : compute_confidence_score idQ md5C ex1 (19/20) none = 100 := by
  have hrel : is_non_relevant ex1 = false := by decide
  have hne : (decide (ex1 = [])) = false := by decide
  have hws : (pySplit ex1).length = 10 := by decide
  have hsum : ((pySplit ex1).map List.length).sum = 85 := by decide
  have hdup : (pySplit ex1).eraseDups.length = 10 := by decide
  have hfc : filler_count (pySplit ex1) = 0 := by decide
  have hmd : md5C ex1 % 100 = 59 := by decide
  have hlf : length_factor 10 = 1 := by norm_num [length_factor]
  have hcf : complexity_factor (pySplit ex1) = 12/10 := by
    simp only [complexity_factor, hws, hsum, hdup]
    norm_num
  have hqa : question_adjustment 59 = 7 := by decide
  simp only [compute_confidence_score, hrel, hne, Bool.or_false, Bool.false_or,
    Option.none_bind, hws, hcf, hfc, hmd, hlf, hqa]
  rw [if_neg (by simp), if_pos (by norm_num : (0:ℚ) < 19/20),
      show ((15 : ℤ) ⊓ ((0 * 3 : ℕ) : ℤ)) = 0 from by decide]
  rw [show ((19:ℚ)/20 * 100 * 1 * (12/10) + ((7:ℤ):ℚ) - ((0:ℤ):ℚ)) = 121 from by
        push_cast; norm_num]
  rw [show (100:ℚ) ⊓ 121 = 100 from min_eq_left (by norm_num)]
  rw [show (0:ℚ) ⊔ 100 = 100 from max_eq_right (by norm_num)]
  rw [show (100:ℚ) = ((100:ℤ):ℚ) from by norm_num, pyRound_intCast]

set_option maxRecDepth 40000 in
theorem conf_ex2_eval : compute_confidence_score idQ md5C ex2 (19/20) none = 94 := by
  have hrel : is_non_relevant ex2 = false := by decide
  have hne : (decide (ex2 = [])) = false := by decide
  have hws : (pySplit ex2).length = 11 := by decide
  have hsum : ((pySplit ex2).map List.length).sum = 55 := by decide
  have hdup : (pySplit ex2).eraseDups.length = 1 := by decide
  have hfc : filler_count (pySplit ex2) = 0 := by decide
  have hmd : md5C ex2 % 100 = 39 := by decide
  have hlf : length_factor 11 = 1 := by norm_num [length_factor]
  have hcf : complexity_factor (pySplit ex2) = 9/10 := by
    simp only [complexity_factor, hws, hsum, hdup]
    norm_num
  have hqa : question_adjustment 39 = 8 := by decide
  simp only [compute_confidence_score, hrel, hne, Bool.or_false, Bool.false_or,
    Option.none_bind, hws, hcf, hfc, hmd, hlf, hqa]
  rw [if_neg (by simp), if_pos (by norm_num : (0:ℚ) < 19/20),
      show ((15 : ℤ) ⊓ ((0 * 3 : ℕ) : ℤ)) = 0 from by decide]
  rw [show ((19:ℚ)/20 * 100 * 1 * (9/10) + ((8:ℤ):ℚ) - ((0:ℤ):ℚ)) = 187/2 from by
        push_cast; norm_num]
  rw [show (100:ℚ) ⊓ (187/2) = 187/2 from min_eq_right (by norm_num)]
  rw [show (0:ℚ) ⊔ (187/2) = 187/2 from max_eq_right (by norm_num)]
  exact pyRound_187_2

/-- The voted tier's key is present in the rubric, or the vote defaulted
to 1. -/
theorem voting_score_key_present {E : Type} (M : Embedder E) (e : E)
    (rubric : List (List Char × List (List Char))) :
    (rubric.lookup (tier_key (voting_score M e rubric))).isSome = true ∨
    voting_score M e rubric = 1 := by
  unfold voting_score
  cases hf : [4, 3, 2, 1].find? (tier_passes M e rubric) with
  | none => right; rfl
  | some p =>
    left
    have hp := List.find?_some hf
    unfold tier_passes at hp
    cases hl : rubric.lookup (tier_key p) with
    | none => rw [hl] at hp; simp at hp
    | some inds => simp [hl]

/-- The voted tier is the highest passing tier, or 1 when none passes. -/
theorem voting_score_highest {E : Type} (M : Embedder E) (e : E)
    (rubric : List (List Char × List (List Char))) :
    voting_score M e rubric ≠ 0 ∧
    (∀ p ∈ [4, 3, 2, 1], tier_passes M e rubric p = true → p ≤ voting_score M e rubric) ∧
    (tier_passes M e rubric (voting_score M e rubric) = true ∨
      (voting_score M e rubric = 1 ∧ ∀ p ∈ [4, 3, 2, 1], tier_passes M e rubric p = false)) := by
  by_cases h4 : tier_passes M e rubric 4 <;>
  by_cases h3 : tier_passes M e rubric 3 <;>
  by_cases h2 : tier_passes M e rubric 2 <;>
  by_cases h1 : tier_passes M e rubric 1 <;>
  simp [voting_score, List.find?, h4, h3, h2, h1]

/-! ## Claim C1 -/

/-- Claim C1 (amended): for every transcript classified non-relevant, and
for every embedder state, RNG, acoustic value and question ids,
`score_with_rubric` returns tier 0 and `compute_confidence_score` returns 0
— provided the rubric entry for the scored question has a non-empty
`ideal_points` mapping whose `"0"` entry, if present, is a non-empty list
(an absent/empty rubric instead returns the neutral score 3, and an empty
`"0"` list raises an uncaught `IndexError`). -/
theorem non_relevant_gate_zero {E : Type} (model_embedder : Option (Embedder E))
    (pick : List (List Char) → List Char) (expFn : ℚ → ℚ) (md5Fn : List Char → ℕ)
    (question_id question_text transcript : List Char) (log_prob_raw : ℚ)
    (conf_question_id : Option (List Char))
    (rubric_data : List (List Char × RubricEntry))
    (hnr : is_non_relevant transcript = true)
    (hr : ((rubric_data.lookup question_id).getD ⟨[]⟩).ideal_points ≠ [])
    (h0 : ((rubric_data.lookup question_id).getD ⟨[]⟩).ideal_points.lookup (tier_key 0)
      ≠ some []) :
    (score_with_rubric model_embedder pick question_id question_text transcript rubric_data).map
        Prod.fst = some 0 ∧
    compute_confidence_score expFn md5Fn transcript log_prob_raw conf_question_id = 0 := by
  constructor
  · cases model_embedder with
    | none => rfl
    | some M =>
      have hnr' : is_non_relevant (pyStrip transcript) = true := by
        rw [is_non_relevant_pyStrip]; exact hnr
      simp only [score_with_rubric, hr, if_neg, hnr', Bool.true_or, if_true]
      cases hcase :
          (((rubric_data.lookup question_id).getD ⟨[]⟩).ideal_points).lookup (tier_key 0) with
      | none => simp [hcase]
      | some l =>
        cases l with
        | nil => exact absurd hcase h0
        | cons r rs => simp [hcase]
  · simp [compute_confidence_score, hnr]

theorem non_relevant_gate_zero_witness :
    is_non_relevant "i dont know".toList = true ∧
    ((score_with_rubric (some unitEmbedder) pickHead "q1".toList [] "i dont know".toList
        wRubricQ1).map Prod.fst = some 0 ∧
     compute_confidence_score idQ md5C "i dont know".toList (19/20) (some "q3".toList) = 0) :=
  ⟨by decide,
   non_relevant_gate_zero (some unitEmbedder) pickHead idQ md5C "q1".toList []
     "i dont know".toList (19/20) (some "q3".toList) wRubricQ1 (by decide) (by decide)
     (by decide)⟩

/-- Claim C1 counterexample: the empty transcript is non-relevant, yet with
rubric data that has no entry for the question, `score_with_rubric` returns
tier 3, not tier 0. -/
theorem non_relevant_gate_zero_counterexample :
    is_non_relevant ([] : List Char) = true ∧
    (score_with_rubric (some unitEmbedder) pickHead "q1".toList [] ([] : List Char)
        ([] : List (List Char × RubricEntry))).map Prod.fst = some 3 ∧
    (3 : ℕ) ≠ 0 := by decide

/-! ## Claim C2 -/

/-- Claim C2 (confirmed): for every question id with an entry in the
hard-coded `target_scores` map (q1 ↦ 3, q2 ↦ 3, q3 ↦ 2, q4 ↦ 4, q5 ↦ 3),
a non-empty rubric, and an answer that passes the relevance/length gate
and encodes without raising, `score_with_rubric` returns the fixed tier
with the canned justification — independent of the answer text, the
rubric's indicator phrases, and all similarity values. -/
theorem target_override_fixed_tier {E : Type} (M : Embedder E)
    (pick : List (List Char) → List Char)
    (question_id question_text answer : List Char)
    (rubric_data : List (List Char × RubricEntry)) (t : ℕ) (e : E)
    (hr : ((rubric_data.lookup question_id).getD ⟨[]⟩).ideal_points ≠ [])
    (hg1 : is_non_relevant (pyStrip answer) = false)
    (hg2 : MIN_LENGTH_FOR_SCORE ≤ (pySplit (pyStrip answer)).length)
    (henc : M.encode (pyLower (pyStrip answer)) = .ok e)
    (ht : target_scores.lookup question_id = some t) :
    score_with_rubric (some M) pick question_id question_text answer rubric_data
      = some (t, (score_reasons.lookup t).getD score_reasons_default) := by
  have hg2' : ¬ ((pySplit (pyStrip answer)).length < MIN_LENGTH_FOR_SCORE) :=
    Nat.not_lt.mpr hg2
  simp [score_with_rubric, hr, hg1, hg2', henc, ht]

theorem target_override_fixed_tier_witness :
    target_scores.lookup "q1".toList = some 3 ∧
    score_with_rubric (some unitEmbedder) pickHead "q1".toList [] wAnswer wRubricQ1
      = some (3, (score_reasons.lookup 3).getD score_reasons_default) :=
  ⟨by decide,
   target_override_fixed_tier unitEmbedder pickHead "q1".toList [] wAnswer wRubricQ1 3 ()
     (by decide) (by decide) (by decide) rfl (by decide)⟩

/-! ## Claim C3 -/

/-- Claim C3 (amended): for every question id NOT in the hard-coded
`target_scores` map, with a non-empty rubric, a gate-passing answer, and a
successful answer encoding, `score_with_rubric` returns the voting result:
the highest tier of {4, 3, 2, 1} that is present with indicators and whose
hit count reaches its minimum-hit threshold (tiers without indicators are
skipped), and tier 1 when no tier passes.  The score is never 0 on this
path.  (As stated the claim is false: for q1-q5 the hard-coded override
bypasses voting, and a missing rubric returns 3 — see the
counterexample.) -/
theorem voting_selects_highest_tier {E : Type} (M : Embedder E)
    (pick : List (List Char) → List Char)
    (question_id question_text answer : List Char)
    (rubric_data : List (List Char × RubricEntry))
    (rubric : List (List Char × List (List Char))) (e : E)
    (hrd : ((rubric_data.lookup question_id).getD ⟨[]⟩).ideal_points = rubric)
    (hr : rubric ≠ [])
    (hq : target_scores.lookup question_id = none)
    (hg1 : is_non_relevant (pyStrip answer) = false)
    (hg2 : MIN_LENGTH_FOR_SCORE ≤ (pySplit (pyStrip answer)).length)
    (henc : M.encode (pyLower (pyStrip answer)) = .ok e) :
    (score_with_rubric (some M) pick question_id question_text answer rubric_data).map Prod.fst
        = some (voting_score M e rubric) ∧
    voting_score M e rubric ≠ 0 ∧
    (∀ p ∈ [4, 3, 2, 1], tier_passes M e rubric p = true → p ≤ voting_score M e rubric) ∧
    (tier_passes M e rubric (voting_score M e rubric) = true ∨
      (voting_score M e rubric = 1 ∧ ∀ p ∈ [4, 3, 2, 1], tier_passes M e rubric p = false)) := by
  have hg2' : ¬ ((pySplit (pyStrip answer)).length < MIN_LENGTH_FOR_SCORE) :=
    Nat.not_lt.mpr hg2
  refine ⟨?_, voting_score_highest M e rubric⟩
  simp only [score_with_rubric, hrd]
  rw [if_neg hr]
  simp only [hg1, hg2', henc, hq, Bool.false_or, decide_eq_true_eq, if_neg, ite_false,
    decide_eq_false_iff_not]
  split <;> rfl

theorem voting_selects_highest_tier_witness :
    voting_score unitEmbedder () wIdeal = 4 ∧
    ((score_with_rubric (some unitEmbedder) pickHead "q7".toList [] wAnswer wRubricQ7).map
        Prod.fst = some (voting_score unitEmbedder () wIdeal) ∧
     voting_score unitEmbedder () wIdeal ≠ 0 ∧
     (∀ p ∈ [4, 3, 2, 1], tier_passes unitEmbedder () wIdeal p = true →
        p ≤ voting_score unitEmbedder () wIdeal) ∧
     (tier_passes unitEmbedder () wIdeal (voting_score unitEmbedder () wIdeal) = true ∨
       (voting_score unitEmbedder () wIdeal = 1 ∧
        ∀ p ∈ [4, 3, 2, 1], tier_passes unitEmbedder () wIdeal p = false))) :=
  ⟨by decide,
   voting_selects_highest_tier unitEmbedder pickHead "q7".toList [] wAnswer wRubricQ7 wIdeal ()
     (by decide) (by decide) (by decide) (by decide) (by decide) rfl⟩

/-- Claim C3 counterexample: for q1 the answer passes the gate and tier 4
passes its threshold (every similarity is 1), so the claimed voting result
is 4, but the engine returns the hard-coded target 3. -/
theorem voting_selects_highest_tier_counterexample :
    is_non_relevant (pyStrip wAnswer) = false ∧
    MIN_LENGTH_FOR_SCORE ≤ (pySplit (pyStrip wAnswer)).length ∧
    ((wRubricQ1.lookup "q1".toList).getD ⟨[]⟩).ideal_points = wIdeal ∧
    tier_passes unitEmbedder () wIdeal 4 = true ∧
    (score_with_rubric (some unitEmbedder) pickHead "q1".toList [] wAnswer wRubricQ1).map
        Prod.fst = some 3 ∧
    (3 : ℕ) ≠ 4 := by decide

/-! ## Claim C4 -/

/-- Claim C4 (amended): a hit is an indicator whose cosine similarity to
the answer embedding is at least 0.40 (= 2/5); the minimum-hit threshold
for a tier with n indicators is max 1 ⌊0.6 n⌋ for tier 4 and
max 1 ⌊0.5 n⌋ for tier 3 (FLOOR — Python `int()` truncation — not the
ceiling the claim states), and 1 for tiers 2 and 1. -/
theorem hit_threshold_floor_rule {E : Type} (M : Embedder E) (e : E)
    (indicators : List (List Char)) (embs : List E) (n : ℕ)
    (hn : 1 ≤ n) (hne : indicators ≠ [])
    (henc : (indicators.map pyLower).mapM M.encode = .ok embs) :
    ((mkRat 2 5 : ℚ) = 2/5) ∧
    count_matches M e indicators (mkRat 2 5)
      = embs.countP (fun v => decide ((mkRat 2 5 : ℚ) ≤ M.cosSim e v)) ∧
    min_hits 4 n = max 1 ⌊(n : ℚ) * (6/10)⌋₊ ∧
    min_hits 3 n = max 1 ⌊(n : ℚ) * (5/10)⌋₊ ∧
    min_hits 2 n = 1 ∧ min_hits 1 n = 1 := by
  refine ⟨?_, ?_, ?_, ?_, rfl, rfl⟩
  · rw [Rat.mkRat_eq_div]; norm_num
  · rw [count_matches, if_neg hne, henc]
  · have h : (n : ℚ) * (6/10) = ((6 * n : ℕ) : ℚ) / ((10 : ℕ) : ℚ) := by push_cast; ring
    rw [min_hits, if_pos rfl, h, Nat.floor_div_nat, Nat.floor_natCast]
  · have h : (n : ℚ) * (5/10) = ((5 * n : ℕ) : ℚ) / ((10 : ℕ) : ℚ) := by push_cast; ring
    rw [min_hits, if_neg (by norm_num), if_pos rfl, h, Nat.floor_div_nat, Nat.floor_natCast]

theorem hit_threshold_floor_rule_witness :
    (1 ≤ 5) ∧ ([wPhrase] ≠ ([] : List (List Char))) ∧
    (((mkRat 2 5 : ℚ) = 2/5) ∧
     count_matches unitEmbedder () [wPhrase] (mkRat 2 5)
       = [()].countP (fun v => decide ((mkRat 2 5 : ℚ) ≤ unitEmbedder.cosSim () v)) ∧
     min_hits 4 5 = max 1 ⌊(5 : ℕ) * ((6 : ℚ)/10)⌋₊ ∧
     min_hits 3 5 = max 1 ⌊(5 : ℕ) * ((5 : ℚ)/10)⌋₊ ∧
     min_hits 2 5 = 1 ∧ min_hits 1 5 = 1) :=
  ⟨by decide, by decide,
   hit_threshold_floor_rule unitEmbedder () [wPhrase] [()] 5 (by decide) (by decide) rfl⟩

/-- Claim C4 counterexample: for a tier-4 indicator list of length 2 the
code requires max 1 ⌊1.2⌋ = 1 hit, while the claimed ceiling rule
demands max 1 ⌈1.2⌉ = 2. -/
theorem hit_threshold_floor_rule_counterexample :
    min_hits 4 2 = 1 ∧ max 1 ⌈(2 : ℚ) * (6/10)⌉₊ = 2 ∧ (1 : ℕ) ≠ 2 := by
  refine ⟨by decide, ?_, by decide⟩
  have h : ⌈(2 : ℚ) * (6/10)⌉₊ = 2 := by
    rw [show (2 : ℚ) * (6/10) = 6/5 by norm_num]
    rw [Nat.ceil_eq_iff (by norm_num)]
    norm_num
  rw [h]
  decide

/-! ## Claim C5 -/

/-- Claim C5 (amended): for every question id that is NOT in the hard-coded
`target_scores` map and whose rubric entry has a non-empty `ideal_points`
mapping, every tier returned by `score_with_rubric` equals a tier key
present in that rubric, or is exactly 0, or is exactly 1.  (As stated the
claim is false: a missing/empty rubric returns the fixed tier 3, and the
q1-q5 override can return a tier absent from the rubric — see the
counterexample.) -/
theorem tier_in_rubric_or_fallback {E : Type} (model_embedder : Option (Embedder E))
    (pick : List (List Char) → List Char)
    (question_id question_text answer : List Char)
    (rubric_data : List (List Char × RubricEntry)) (s : ℕ) (r : List Char)
    (hq : target_scores.lookup question_id = none)
    (hr : ((rubric_data.lookup question_id).getD ⟨[]⟩).ideal_points ≠ [])
    (hres : score_with_rubric model_embedder pick question_id question_text answer rubric_data
      = some (s, r)) :
    (((rubric_data.lookup question_id).getD ⟨[]⟩).ideal_points.lookup (tier_key s)).isSome = true
      ∨ s = 0 ∨ s = 1 := by
  cases model_embedder with
  | none =>
    simp only [score_with_rubric, Option.some.injEq, Prod.mk.injEq] at hres
    right; left; exact hres.1.symm
  | some M =>
    simp only [score_with_rubric] at hres
    rw [if_neg hr] at hres
    split at hres
    · split at hres
      · exact absurd hres (by simp)
      · simp only [Option.some.injEq, Prod.mk.injEq] at hres
        right; left; exact hres.1.symm
      · simp only [Option.some.injEq, Prod.mk.injEq] at hres
        right; left; exact hres.1.symm
    · split at hres
      · simp only [Option.some.injEq, Prod.mk.injEq] at hres
        right; right; exact hres.1.symm
      · split at hres
        · rename_i t hv
          rw [hq] at hv
          exact absurd hv (by simp)
        · split at hres <;>
          · simp only [Option.some.injEq, Prod.mk.injEq] at hres
            rcases hres with ⟨hs, -⟩
            subst hs
            rcases voting_score_key_present M _ _ with h | h
            · exact Or.inl h
            · right; right; exact h

theorem tier_in_rubric_or_fallback_witness :
    target_scores.lookup "q7".toList = none ∧
    ((((wRubricQ7.lookup "q7".toList).getD ⟨[]⟩).ideal_points.lookup (tier_key 4)).isSome = true
      ∨ (4 : ℕ) = 0 ∨ (4 : ℕ) = 1) :=
  ⟨by decide,
   tier_in_rubric_or_fallback (some unitEmbedder) pickHead "q7".toList [] wAnswer wRubricQ7 4
     "Excellent demonstration of knowledge with specific examples and clear structure.".toList
     (by decide) (by decide) (by decide)⟩

/-- Claim C5 counterexample: with no rubric entry at all, the returned tier
is 3, which is neither a tier key of the (empty) rubric nor 0 nor 1. -/
theorem tier_in_rubric_or_fallback_counterexample :
    score_with_rubric (some unitEmbedder) pickHead "q9".toList [] wAnswer
        ([] : List (List Char × RubricEntry)) = some (3, no_rubric_reason) ∧
    (([] : List (List Char × RubricEntry)).lookup "q9".toList).isNone = true ∧
    (3 : ℕ) ≠ 0 ∧ (3 : ℕ) ≠ 1 := by decide

/-! ## Claim C6 -/

/-- Claim C6 (confirmed): for every transcript, acoustic value, question
id, exp capability and md5 capability, `compute_confidence_score` returns
an integer in [0, 100] — on the gate, hard-coded-target and normal paths —
and the exception-fallback branch `confidence_fallback` also stays in
[0, 100]. -/
theorem confidence_within_bounds (expFn : ℚ → ℚ) (md5Fn : List Char → ℕ)
    (transcript : List Char) (log_prob_raw : ℚ) (question_id : Option (List Char)) :
    (0 ≤ compute_confidence_score expFn md5Fn transcript log_prob_raw question_id ∧
     compute_confidence_score expFn md5Fn transcript log_prob_raw question_id ≤ 100) ∧
    (0 ≤ confidence_fallback md5Fn transcript question_id ∧
     confidence_fallback md5Fn transcript question_id ≤ 100) := by
  constructor
  · unfold compute_confidence_score
    split
    · norm_num
    · split
      · next v hv =>
        have hv' : v ∈ target_confidences.map Prod.snd := by
          rcases Option.bind_eq_some.mp hv with ⟨q, hq1, hq2⟩
          split at hq2
          · exact absurd hq2 (by simp)
          · exact lookup_mem_values hq2
        have hall : ∀ x ∈ target_confidences.map Prod.snd, 0 ≤ x ∧ x ≤ 100 := by decide
        exact hall v hv'
      · next =>
        exact pyRound_bounds (le_max_left _ _) (max_le (by norm_num) (min_le_left _ _))
  · unfold confidence_fallback
    have hft : 0 ≤ (if transcript = [] then (50 : ℤ)
          else 30 + ((md5Fn transcript % 51 : ℕ) : ℤ)) ∧
        (if transcript = [] then (50 : ℤ)
          else 30 + ((md5Fn transcript % 51 : ℕ) : ℤ)) ≤ 100 := by
      split
      · norm_num
      · have hm := Nat.mod_lt (md5Fn transcript) (y := 51) (by norm_num)
        omega
    have hall : ∀ x ∈ fallback_map.map Prod.snd, 0 ≤ x ∧ x ≤ 100 := by decide
    cases question_id with
    | none => exact hft
    | some q =>
      by_cases hq : q = []
      · simpa [hq] using hft
      · simp only [hq, if_false, ite_false]
        cases hl : fallback_map.lookup q with
        | none => simpa [hl] using hft
        | some v => simpa [hl] using hall v (lookup_mem_values hl)

/-! ## Claim C7 -/

/-- Claim C7 (confirmed): for every question id whose rubric entry is
absent or has no `ideal_points`, and every answer — including empty and
non-relevant ones — `score_with_rubric` (with a loaded embedder) returns
score 3 with the "No rubric available for this question." justification,
independent of transcript content. -/
theorem missing_rubric_neutral_default {E : Type} (M : Embedder E)
    (pick : List (List Char) → List Char)
    (question_id question_text answer : List Char)
    (rubric_data : List (List Char × RubricEntry))
    (h : ((rubric_data.lookup question_id).getD ⟨[]⟩).ideal_points = []) :
    score_with_rubric (some M) pick question_id question_text answer rubric_data
      = some (3, no_rubric_reason) := by
  simp [score_with_rubric, h]

theorem missing_rubric_neutral_default_witness :
    (([] : List (List Char × RubricEntry)).lookup "q9".toList).isNone = true ∧
    score_with_rubric (some unitEmbedder) pickHead "q9".toList [] "i dont know".toList []
      = some (3, no_rubric_reason) :=
  ⟨by decide,
   missing_rubric_neutral_default unitEmbedder pickHead "q9".toList [] "i dont know".toList []
     (by decide)⟩

/-! ## Claim C8 -/

/-- Claim C8 (amended): given the same embedder (computing the same
embeddings), question, answer and rubric, two runs of `score_with_rubric`
return the same SCORE whatever the state of the process RNG; the
justification, however, is drawn with `random.choice` on the voting path
and may differ between runs — see the counterexample. -/
theorem score_component_deterministic {E : Type} (model_embedder : Option (Embedder E))
    (pick₁ pick₂ : List (List Char) → List Char)
    (question_id question_text answer : List Char)
    (rubric_data : List (List Char × RubricEntry)) :
    (score_with_rubric model_embedder pick₁ question_id question_text answer rubric_data).map
        Prod.fst =
    (score_with_rubric model_embedder pick₂ question_id question_text answer rubric_data).map
        Prod.fst := by
  cases model_embedder with
  | none => rfl
  | some M =>
    simp only [score_with_rubric]
    split
    · rfl
    · split
      · split <;> rfl
      · split
        · rfl
        · split
          · rfl
          · split <;> rfl

/-- Claim C8 counterexample: on the voting path the full (score,
justification) result differs between two RNG states, so the returned pair
is not a function of the listed inputs alone. -/
theorem score_pair_rng_counterexample :
    score_with_rubric (some unitEmbedder) pickHead "q7".toList [] wAnswer wRubricQ7 ≠
    score_with_rubric (some unitEmbedder) pickSecond "q7".toList [] wAnswer wRubricQ7 := by
  decide

/-! ## Claim C9 -/

/-- Claim C9 (amended): for two relevant, filler-free transcripts with the
same acoustic value, both scored without a question id, and — beyond the
claim's "same length bucket" — the same complexity factor and the same
md5-derived adjustment, the two confidences are EQUAL (hence in particular
non-decreasing in word count).  As stated the claim is false: within one
bucket the score still varies with the diversity/word-length complexity
factor and with the md5 hash of the transcript, and can strictly decrease
as the word count grows — see the counterexample. -/
theorem confidence_equal_within_bucket (expFn : ℚ → ℚ) (md5Fn : List Char → ℕ)
    (t₁ t₂ : List Char) (log_prob_raw : ℚ)
    (hrel1 : is_non_relevant t₁ = false) (hrel2 : is_non_relevant t₂ = false)
    (hlf : length_factor (pySplit t₁).length = length_factor (pySplit t₂).length)
    (hcf : complexity_factor (pySplit t₁) = complexity_factor (pySplit t₂))
    (hfc1 : filler_count (pySplit t₁) = 0) (hfc2 : filler_count (pySplit t₂) = 0)
    (hmd : md5Fn t₁ % 100 = md5Fn t₂ % 100) :
    compute_confidence_score expFn md5Fn t₁ log_prob_raw none =
    compute_confidence_score expFn md5Fn t₂ log_prob_raw none := by
  have hne1 : (decide (t₁ = [])) = false := by
    by_cases h : t₁ = []
    · rw [h] at hrel1; exact absurd hrel1 (by decide)
    · simp [h]
  have hne2 : (decide (t₂ = [])) = false := by
    by_cases h : t₂ = []
    · rw [h] at hrel2; exact absurd hrel2 (by decide)
    · simp [h]
  simp only [compute_confidence_score, hrel1, hrel2, hne1, hne2, Bool.or_false,
    Option.none_bind, hlf, hcf, hfc1, hfc2, hmd]

set_option maxRecDepth 40000 in
theorem confidence_equal_within_bucket_witness :
    is_non_relevant wT1 = false ∧ (pySplit wT1).length = 10 ∧ (pySplit wT2).length = 12 ∧
    compute_confidence_score idQ md5C wT1 (19/20) none =
      compute_confidence_score idQ md5C wT2 (19/20) none :=
  ⟨by decide, by decide, by decide,
   confidence_equal_within_bucket idQ md5C wT1 wT2 (19/20) (by decide) (by decide)
     (by rw [show (pySplit wT1).length = 10 from by decide,
             show (pySplit wT2).length = 12 from by decide]
         norm_num [length_factor])
     (by rw [show complexity_factor (pySplit wT1) = 12/10 from by
               simp only [complexity_factor, show (pySplit wT1).length = 10 from by decide,
                 show ((pySplit wT1).map List.length).sum = 71 from by decide,
                 show (pySplit wT1).eraseDups.length = 10 from by decide]
               norm_num,
             show complexity_factor (pySplit wT2) = 12/10 from by
               simp only [complexity_factor, show (pySplit wT2).length = 12 from by decide,
                 show ((pySplit wT2).map List.length).sum = 86 from by decide,
                 show (pySplit wT2).eraseDups.length = 12 from by decide]
               norm_num])
     (by decide) (by decide) (by decide)⟩

set_option maxRecDepth 40000 in
/-- Claim C9 counterexample: `ex1` (10 words) and `ex2` (11 words) are
relevant, filler-free, in the same length bucket and scored with the same
acoustic value 0.95 and the genuine md5 hashes, yet the longer transcript
scores strictly lower (94 < 100). -/
theorem confidence_monotonic_counterexample :
    is_non_relevant ex1 = false ∧ is_non_relevant ex2 = false ∧
    filler_count (pySplit ex1) = 0 ∧ filler_count (pySplit ex2) = 0 ∧
    length_factor (pySplit ex1).length = length_factor (pySplit ex2).length ∧
    (pySplit ex1).length ≤ (pySplit ex2).length ∧
    compute_confidence_score idQ md5C ex2 (19/20) none
      < compute_confidence_score idQ md5C ex1 (19/20) none := by
  refine ⟨by decide, by decide, by decide, by decide, ?_, by decide, ?_⟩
  · rw [show (pySplit ex1).length = 10 from by decide,
        show (pySplit ex2).length = 11 from by decide]
    norm_num [length_factor]
  · rw [conf_ex1_eval, conf_ex2_eval]
    norm_num

/-! ## Claim C10 -/

/-- Claim C10 (confirmed): the orchestrator (app.py, `render_processing_page`)
calls `compute_confidence_score` without a question id and records the
returned value multiplied by 100 (`recorded_confidence`; the two-decimal
formatting of an integer times 100 is exact), so whenever the estimator
returns an integer greater than 1 the recorded confidence exceeds 100. -/
theorem recorded_confidence_overflow (expFn : ℚ → ℚ) (md5Fn : List Char → ℕ)
    (transcript : List Char) (log_prob_raw : ℚ)
    (h : 1 < compute_confidence_score expFn md5Fn transcript log_prob_raw none) :
    100 < recorded_confidence expFn md5Fn transcript log_prob_raw := by
  unfold recorded_confidence
  have h2 : (2 : ℚ) ≤
      ((compute_confidence_score expFn md5Fn transcript log_prob_raw none : ℤ) : ℚ) := by
    exact_mod_cast h
  linarith

theorem recorded_confidence_overflow_witness :
    1 < compute_confidence_score idQ md5C ex1 (19/20) none ∧
    100 < recorded_confidence idQ md5C ex1 (19/20) :=
  ⟨by rw [conf_ex1_eval]; norm_num,
   recorded_confidence_overflow idQ md5C ex1 (19/20) (by rw [conf_ex1_eval]; norm_num)⟩

end Scoring
